import Mathlib

/-!
Shallow embedding of the user service in `src/main.go`: the `getUsers` and
`createUser` HTTP handlers, the `checkUsernameExists` helper, and the
`sendErrorResponse` / `sendSuccessResponse` response writers, together with
a model of the `users` table and of the failure points of the database
driver.  The database itself is an external collaborator, so its possible
outcomes (query errors, scan errors, iteration errors, insert errors) are
supplied as explicit oracle values; the handler code that reacts to them is
translated line by line from `main.go`.
-/

/-- JSON values, as produced by Go `encoding/json`.  An object keeps its
fields in the order `json.Marshal` emits them for a Go map, i.e. sorted by
key. -/
inductive Json where
  | null : Json
  | num : Int → Json
  | str : String → Json
  | arr : List Json → Json
  | obj : List (String × Json) → Json

/-- Look a field up in the field list of a JSON object. -/
def Json.lookupField : List (String × Json) → String → Option Json
  | [], _ => none
  | (k, v) :: rest, key => if k = key then some v else lookupField rest key

/-- An HTTP response as the handlers build it: the status code passed to
`WriteHeader` and the JSON body passed to `json.NewEncoder(w).Encode`. -/
structure HttpResponse where
  status : Nat
  body : Json

/-- `sendErrorResponse` from `main.go`: writes the status code and the body
`{"error": message, "status": statusCode}` (Go maps marshal with sorted
keys, so `error` precedes `status`). -/
def sendErrorResponse (message : String) (statusCode : Nat) : HttpResponse :=
  ⟨statusCode, Json.obj [("error", Json.str message), ("status", Json.num statusCode)]⟩

/-- `sendSuccessResponse` from `main.go`: writes the status code and encodes
the data map the caller built (fields given in Go's marshal order). -/
def sendSuccessResponse (data : List (String × Json)) (statusCode : Nat) : HttpResponse :=
  ⟨statusCode, Json.obj data⟩

/-- One row of the `users` table: integer `id` assigned by the database and
a string `name`. -/
structure User where
  id : Int
  name : String
deriving DecidableEq

/-- The `users` table: its rows in storage order, plus the next id the
database will assign on insert. -/
structure Db where
  rows : List User
  nextId : Int
deriving DecidableEq

/-- Go's `len` on a string counts UTF-8 bytes, not characters. -/
def goLen (s : String) : Nat := s.utf8ByteSize

/-- The result of one `rows.Next()`/`rows.Scan` step in `getUsers`: either a
scanned `(id, name)` row or a driver error (the string is the driver detail,
which the handler only logs). -/
inductive ScanOutcome where
  | ok : Int → String → ScanOutcome
  | err : String → ScanOutcome
deriving DecidableEq

/-- The row stream behind a successful `db.Query`: the scan outcomes the
cursor yields, and the value of `rows.Err()` once iteration stops (`some`
detail means an iteration error). -/
structure QueryRows where
  scans : List ScanOutcome
  iterErr : Option String
deriving DecidableEq

/-- The outcome of `db.Query("SELECT id, name FROM users")`: a driver error
(detail only logged) or a row stream. -/
inductive QueryOutcome where
  | err : String → QueryOutcome
  | ok : QueryRows → QueryOutcome
deriving DecidableEq

/-- The row stream a healthy database produces for table `db`: one
successful scan per stored row, in storage order, and no iteration error. -/
def Db.queryAll (db : Db) : QueryRows :=
  ⟨db.rows.map (fun u => ScanOutcome.ok u.id u.name), none⟩

/-- The scan loop of `getUsers`.  `users` starts as Go's zero value for a
slice, which is `nil` (here `none`); `append` always yields a non-nil slice
(`some`).  The loop returns at the first scan error, discarding what was
accumulated. -/
def scanLoop : List ScanOutcome → Option (List Json) → Except String (Option (List Json))
  | [], users => Except.ok users
  | ScanOutcome.err e :: _, _ => Except.error e
  | ScanOutcome.ok id name :: rest, users =>
      scanLoop rest (some ((users.getD []) ++
        [Json.obj [("id", Json.num id), ("name", Json.str name)]]))

/-- Go `encoding/json` marshals a nil slice as `null` and a non-nil slice as
an array. -/
def encodeGoSlice : Option (List Json) → Json
  | none => Json.null
  | some xs => Json.arr xs

/-- `getUsers` from `main.go`, as a function of the query outcome the
database driver returns. -/
def getUsers (q : QueryOutcome) : HttpResponse :=
  match q with
  | QueryOutcome.err _ => sendErrorResponse "Failed to query users" 500
  | QueryOutcome.ok rows =>
    match scanLoop rows.scans none with
    | Except.error _ => sendErrorResponse "Failed to scan user" 500
    | Except.ok users =>
      match rows.iterErr with
      | some _ => sendErrorResponse "Error iterating users" 500
      | none =>
          sendSuccessResponse
            [("status", Json.num 200), ("users", encodeGoSlice users)] 200

/-- `getUsers` served from a healthy database holding table `db`. -/
def getUsersOnDb (db : Db) : HttpResponse :=
  getUsers (QueryOutcome.ok db.queryAll)

/-- The HTTP method of a request, as far as `createUser` inspects it
(`r.Method != http.MethodPost`). -/
inductive Method where
  | get | post | put | delete | head | options | patch
deriving DecidableEq

/-- An incoming request to `/create`: its method, whether `r.ParseForm()`
succeeds, and the value of `r.FormValue("name")` (the empty string when the
field is absent). -/
structure Request where
  method : Method
  parseFormOk : Bool
  nameField : String
deriving DecidableEq

/-- Driver outcomes for the two database operations a single `createUser`
call can issue: `some detail` makes the existence-check query (resp. the
insert) fail with that driver error, which the handler only logs. -/
structure DbOutcome where
  existsErr : Option String
  insertErr : Option String
deriving DecidableEq

/-- A database query issued by `createUser`, for tracking which calls touch
the database. -/
inductive DbQuery where
  | existsCheck : String → DbQuery
  | insertUser : String → DbQuery
deriving DecidableEq

/-- What one `createUser` call produces: the HTTP response, the table
afterwards, and the database queries it issued, in order. -/
structure CreateResult where
  resp : HttpResponse
  db : Db
  queries : List DbQuery

/-- `checkUsernameExists` from `main.go`: runs
`SELECT EXISTS(SELECT 1 FROM users WHERE name=$1)`, whose SQL `=` on the
name column is exact (byte-identical) string equality, and returns the
driver error if the scan fails. -/
def checkUsernameExists (db : Db) (username : String) (o : Option String) :
    Except String Bool :=
  match o with
  | some e => Except.error e
  | none => Except.ok (db.rows.any (fun u => u.name == username))

/-- `INSERT INTO users (name) VALUES ($1)`: the database appends a row with
the next assigned id. -/
def Db.insertUser (db : Db) (username : String) : Db :=
  ⟨db.rows ++ [⟨db.nextId, username⟩], db.nextId + 1⟩

/-- `createUser` from `main.go`, translated branch by branch: method check,
form parse, missing name, length check (Go `len`, i.e. bytes), existence
check, insert, success. -/
def createUser (r : Request) (db : Db) (o : DbOutcome) : CreateResult :=
  if r.method ≠ Method.post then
    ⟨sendErrorResponse "Invalid request method. Only POST is allowed" 405, db, []⟩
  else if r.parseFormOk = false then
    ⟨sendErrorResponse "Failed to parse form data" 400, db, []⟩
  else
    if r.nameField = "" then
      ⟨sendErrorResponse "Username is required" 400, db, []⟩
    else if goLen r.nameField < 3 ∨ goLen r.nameField > 20 then
      ⟨sendErrorResponse "Username must be between 3 and 20 characters" 400, db, []⟩
    else
      match checkUsernameExists db r.nameField o.existsErr with
      | Except.error _ =>
          ⟨sendErrorResponse "Error checking username" 500, db,
            [DbQuery.existsCheck r.nameField]⟩
      | Except.ok true =>
          ⟨sendErrorResponse "Username already exists" 409, db,
            [DbQuery.existsCheck r.nameField]⟩
      | Except.ok false =>
        match o.insertErr with
        | some _ =>
            ⟨sendErrorResponse "Failed to create user" 500, db,
              [DbQuery.existsCheck r.nameField, DbQuery.insertUser r.nameField]⟩
        | none =>
            ⟨sendSuccessResponse
               [("message", Json.str ("User " ++ r.nameField ++ " created successfully")),
                ("status", Json.num 201)] 201,
             db.insertUser r.nameField,
             [DbQuery.existsCheck r.nameField, DbQuery.insertUser r.nameField]⟩

/-- A POST request to `/create` whose form parses and carries `name`. -/
def postReq (name : String) : Request := ⟨Method.post, true, name⟩

/-- A database driver with no failures injected. -/
def noDbErr : DbOutcome := ⟨none, none⟩

/-- The number of rows of the table whose name is exactly `name`. -/
def Db.countName (db : Db) (name : String) : Nat :=
  (db.rows.filter (fun u => u.name == name)).length

/-! ### Branch characterization of `createUser`

One lemma per early-return branch of the handler, in source order.  Each
lemma's hypotheses are exactly the conditions under which the source reaches
that branch. -/

theorem createUser_not_post (r : Request) (db : Db) (o : DbOutcome)
    (h : r.method ≠ Method.post) :
    createUser r db o =
      ⟨sendErrorResponse "Invalid request method. Only POST is allowed" 405, db, []⟩ := by
  unfold createUser
  rw [if_pos h]

theorem createUser_parse_fail (r : Request) (db : Db) (o : DbOutcome)
    (hm : r.method = Method.post) (hp : r.parseFormOk = false) :
    createUser r db o =
      ⟨sendErrorResponse "Failed to parse form data" 400, db, []⟩ := by
  unfold createUser
  rw [if_neg (by simp [hm]), if_pos hp]

theorem createUser_empty_name (r : Request) (db : Db) (o : DbOutcome)
    (hm : r.method = Method.post) (hp : r.parseFormOk = true)
    (hn : r.nameField = "") :
    createUser r db o =
      ⟨sendErrorResponse "Username is required" 400, db, []⟩ := by
  unfold createUser
  rw [if_neg (by simp [hm]), if_neg (by simp [hp]), if_pos hn]

theorem createUser_bad_length (r : Request) (db : Db) (o : DbOutcome)
    (hm : r.method = Method.post) (hp : r.parseFormOk = true)
    (hn : r.nameField ≠ "")
    (hl : goLen r.nameField < 3 ∨ goLen r.nameField > 20) :
    createUser r db o =
      ⟨sendErrorResponse "Username must be between 3 and 20 characters" 400, db, []⟩ := by
  unfold createUser
  rw [if_neg (by simp [hm]), if_neg (by simp [hp]), if_neg hn, if_pos hl]

theorem createUser_exists_check_err (r : Request) (db : Db) (o : DbOutcome)
    (hm : r.method = Method.post) (hp : r.parseFormOk = true)
    (hn : r.nameField ≠ "")
    (h3 : 3 ≤ goLen r.nameField) (h20 : goLen r.nameField ≤ 20)
    (e : String) (he : o.existsErr = some e) :
    createUser r db o =
      ⟨sendErrorResponse "Error checking username" 500, db,
        [DbQuery.existsCheck r.nameField]⟩ := by
  unfold createUser
  rw [if_neg (by simp [hm]), if_neg (by simp [hp]), if_neg hn, if_neg (by omega), he]
  rfl

theorem createUser_duplicate (r : Request) (db : Db) (o : DbOutcome)
    (hm : r.method = Method.post) (hp : r.parseFormOk = true)
    (hn : r.nameField ≠ "")
    (h3 : 3 ≤ goLen r.nameField) (h20 : goLen r.nameField ≤ 20)
    (he : o.existsErr = none)
    (hdup : db.rows.any (fun u => u.name == r.nameField) = true) :
    createUser r db o =
      ⟨sendErrorResponse "Username already exists" 409, db,
        [DbQuery.existsCheck r.nameField]⟩ := by
  unfold createUser
  rw [if_neg (by simp [hm]), if_neg (by simp [hp]), if_neg hn, if_neg (by omega), he]
  unfold checkUsernameExists
  rw [hdup]

theorem createUser_insert_err (r : Request) (db : Db) (o : DbOutcome)
    (hm : r.method = Method.post) (hp : r.parseFormOk = true)
    (hn : r.nameField ≠ "")
    (h3 : 3 ≤ goLen r.nameField) (h20 : goLen r.nameField ≤ 20)
    (he : o.existsErr = none)
    (hdup : db.rows.any (fun u => u.name == r.nameField) = false)
    (e : String) (hi : o.insertErr = some e) :
    createUser r db o =
      ⟨sendErrorResponse "Failed to create user" 500, db,
        [DbQuery.existsCheck r.nameField, DbQuery.insertUser r.nameField]⟩ := by
  unfold createUser
  rw [if_neg (by simp [hm]), if_neg (by simp [hp]), if_neg hn, if_neg (by omega), he]
  unfold checkUsernameExists
  rw [hdup, hi]

theorem createUser_ok (r : Request) (db : Db) (o : DbOutcome)
    (hm : r.method = Method.post) (hp : r.parseFormOk = true)
    (hn : r.nameField ≠ "")
    (h3 : 3 ≤ goLen r.nameField) (h20 : goLen r.nameField ≤ 20)
    (he : o.existsErr = none)
    (hdup : db.rows.any (fun u => u.name == r.nameField) = false)
    (hi : o.insertErr = none) :
    createUser r db o =
      ⟨sendSuccessResponse
         [("message", Json.str ("User " ++ r.nameField ++ " created successfully")),
          ("status", Json.num 201)] 201,
       db.insertUser r.nameField,
       [DbQuery.existsCheck r.nameField, DbQuery.insertUser r.nameField]⟩ := by
  unfold createUser
  rw [if_neg (by simp [hm]), if_neg (by simp [hp]), if_neg hn, if_neg (by omega), he]
  unfold checkUsernameExists
  rw [hdup, hi]

/-! ### Facts about the `getUsers` scan loop -/

/-- The scan loop stops with a driver error as soon as the row stream
contains one, whatever was accumulated so far. -/
theorem scanLoop_error_of_append (pre : List ScanOutcome) (d : String)
    (t : List ScanOutcome) (acc : Option (List Json)) :
    ∃ e, scanLoop (pre ++ ScanOutcome.err d :: t) acc = Except.error e := by
  induction pre generalizing acc with
  | nil => exact ⟨d, rfl⟩
  | cons s rest ih =>
    cases s with
    | err e2 => exact ⟨e2, rfl⟩
    | ok id name => exact ih _

/-- A response is the JSON error envelope of `sendErrorResponse` with the
given status code. -/
def HttpResponse.isErrorEnvelope (resp : HttpResponse) (code : Nat) : Prop :=
  resp.status = code ∧
    ∃ msg, resp.body = Json.obj [("error", Json.str msg), ("status", Json.num code)]

/-- The driver reported some failure to `getUsers`: the query itself failed,
some row failed to scan, or `rows.Err()` was set after iteration. -/
def QueryOutcome.hasFailure : QueryOutcome → Prop
  | QueryOutcome.err _ => True
  | QueryOutcome.ok rows => (∃ e, ScanOutcome.err e ∈ rows.scans) ∨ rows.iterErr ≠ none

/-! ### Claims -/

/-- C1: `getUsers` on an empty users table answers with HTTP status 200, but
the `users` field of its body is JSON `null`, not the empty array the spec
requires: the Go slice is still `nil` when the loop body never ran, and
`encoding/json` marshals a nil slice as `null`. -/
theorem getUsers_empty_table_users_null :
    getUsersOnDb ⟨[], 1⟩ =
      ⟨200, Json.obj [("status", Json.num 200), ("users", Json.null)]⟩ ∧
    Json.null ≠ Json.arr [] :=
  ⟨rfl, fun h => Json.noConfusion h⟩

/-- C2: a name of 2 characters whose UTF-8 encoding is 4 bytes passes the
`len(username) < 3` check, because Go `len` counts bytes; `createUser`
accepts it with 201 and inserts a row, although the claim requires a 400
response and no insert for every name shorter than 3 characters. -/
theorem createUser_accepts_two_char_multibyte_name :
    "éé".length = 2 ∧ goLen "éé" = 4 ∧
    (createUser (postReq "éé") ⟨[], 1⟩ noDbErr).resp.status = 201 ∧
    (createUser (postReq "éé") ⟨[], 1⟩ noDbErr).db.countName "éé" = 1 := by
  decide

/-- C5: any request to `/create` whose method is not POST gets the 405 error
envelope, the table is unchanged and no database query is issued. -/
theorem createUser_rejects_non_post (r : Request) (db : Db) (o : DbOutcome)
    (h : r.method ≠ Method.post) :
    createUser r db o =
      ⟨sendErrorResponse "Invalid request method. Only POST is allowed" 405, db, []⟩ :=
  createUser_not_post r db o h

/-- Witness for C5 at a concrete GET request. -/
theorem createUser_rejects_non_post_witness :
    createUser ⟨Method.get, true, "bob"⟩ ⟨[⟨1, "alice"⟩], 2⟩ noDbErr =
      ⟨sendErrorResponse "Invalid request method. Only POST is allowed" 405,
       ⟨[⟨1, "alice"⟩], 2⟩, []⟩ :=
  createUser_rejects_non_post ⟨Method.get, true, "bob"⟩ ⟨[⟨1, "alice"⟩], 2⟩ noDbErr
    (by decide)

/-- C10: whenever one of the four early checks of `createUser` rejects the
request (wrong method, form parse failure, missing name, bad length), the
handler issues no database query at all and the table is unchanged. -/
theorem createUser_rejected_no_db_touch (r : Request) (db : Db) (o : DbOutcome)
    (h : r.method ≠ Method.post ∨ r.parseFormOk = false ∨ r.nameField = "" ∨
         goLen r.nameField < 3 ∨ goLen r.nameField > 20) :
    (createUser r db o).queries = [] ∧ (createUser r db o).db = db := by
  by_cases hm : r.method = Method.post
  · cases hpv : r.parseFormOk
    · rw [createUser_parse_fail r db o hm hpv]
      exact ⟨rfl, rfl⟩
    · by_cases hn : r.nameField = ""
      · rw [createUser_empty_name r db o hm hpv hn]
        exact ⟨rfl, rfl⟩
      · have hl : goLen r.nameField < 3 ∨ goLen r.nameField > 20 := by
          rcases h with h | h | h | h | h
          · exact absurd hm h
          · exact absurd h (by simp [hpv])
          · exact absurd h hn
          · exact Or.inl h
          · exact Or.inr h
        rw [createUser_bad_length r db o hm hpv hn hl]
        exact ⟨rfl, rfl⟩
  · rw [createUser_not_post r db o hm]
    exact ⟨rfl, rfl⟩

/-- Witness for C10 at a concrete GET request against a non-empty table. -/
theorem createUser_rejected_no_db_touch_witness :
    (createUser ⟨Method.get, true, "zz"⟩ ⟨[⟨1, "alice"⟩], 2⟩ noDbErr).queries = [] ∧
    (createUser ⟨Method.get, true, "zz"⟩ ⟨[⟨1, "alice"⟩], 2⟩ noDbErr).db =
      ⟨[⟨1, "alice"⟩], 2⟩ :=
  createUser_rejected_no_db_touch ⟨Method.get, true, "zz"⟩ ⟨[⟨1, "alice"⟩], 2⟩ noDbErr
    (Or.inl (by decide))

/-- C6: whenever the driver reports any failure to `getUsers` — query
failure, a scan failure anywhere in the stream, or an iteration error — the
whole response is a single 500 error envelope; no partial list is emitted. -/
theorem getUsers_failure_single_500 (q : QueryOutcome) (h : q.hasFailure) :
    (getUsers q).isErrorEnvelope 500 := by
  cases q with
  | err d => exact ⟨rfl, "Failed to query users", rfl⟩
  | ok rows =>
    obtain ⟨scans, iterErr⟩ := rows
    have h' : (∃ e, ScanOutcome.err e ∈ scans) ∨ iterErr ≠ none := h
    simp only [getUsers]
    rcases hsl : scanLoop scans none with e | users
    · exact ⟨rfl, "Failed to scan user", rfl⟩
    · rcases h' with ⟨e, he⟩ | hie
      · obtain ⟨pre, t, hpre⟩ := List.append_of_mem he
        obtain ⟨e2, h2⟩ := scanLoop_error_of_append pre e t none
        rw [hpre] at hsl
        rw [hsl] at h2
        exact Except.noConfusion h2
      · cases hv : iterErr with
        | none => exact absurd hv hie
        | some d => exact ⟨rfl, "Error iterating users", rfl⟩

/-- Witness for C6 at a concrete query failure. -/
theorem getUsers_failure_single_500_witness :
    (getUsers (QueryOutcome.err "connection reset")).isErrorEnvelope 500 :=
  getUsers_failure_single_500 (QueryOutcome.err "connection reset") trivial

/-- A table holding no row with this exact name also answers `false` to the
existence query. -/
theorem countName_zero_any_false (db : Db) (name : String)
    (h : db.countName name = 0) :
    db.rows.any (fun u => u.name == name) = false := by
  have hnil : db.rows.filter (fun u => u.name == name) = [] :=
    List.length_eq_zero.mp h
  rw [← Bool.not_eq_true, List.any_eq_true]
  rintro ⟨u, hu, hp⟩
  have hmem : u ∈ db.rows.filter (fun u => u.name == name) :=
    List.mem_filter.mpr ⟨hu, hp⟩
  rw [hnil] at hmem
  exact absurd hmem (List.not_mem_nil u)

/-- C3: submitting the same valid, fresh name twice in sequence: the first
call answers 201 and inserts; the second answers the 409 "Username already
exists" envelope, leaves the table unchanged, and exactly one row with that
name exists. -/
theorem createUser_second_duplicate_409 (name : String) (db : Db)
    (hne : name ≠ "") (h3 : 3 ≤ goLen name) (h20 : goLen name ≤ 20)
    (hfresh : db.countName name = 0) :
    (createUser (postReq name) db noDbErr).resp.status = 201 ∧
    (createUser (postReq name) (createUser (postReq name) db noDbErr).db noDbErr).resp =
      sendErrorResponse "Username already exists" 409 ∧
    (createUser (postReq name) (createUser (postReq name) db noDbErr).db noDbErr).db =
      (createUser (postReq name) db noDbErr).db ∧
    ((createUser (postReq name) db noDbErr).db).countName name = 1 := by
  have hfld : (postReq name).nameField = name := rfl
  have hany := countName_zero_any_false db name hfresh
  have e1 := createUser_ok (postReq name) db noDbErr rfl rfl hne h3 h20 rfl hany rfl
  have hdup1 : (db.insertUser name).rows.any (fun u => u.name == name) = true := by
    simp [Db.insertUser]
  have e2 := createUser_duplicate (postReq name) (db.insertUser name) noDbErr
    rfl rfl hne h3 h20 rfl hdup1
  have hnil : db.rows.filter (fun u => u.name == name) = [] :=
    List.length_eq_zero.mp hfresh
  simp only [hfld] at e1 e2
  simp only [e1, e2]
  refine ⟨rfl, trivial, trivial, ?_⟩
  simp [Db.countName, Db.insertUser, List.filter_append, hnil]

/-- Witness for C3 with the name `alice` on an empty table. -/
theorem createUser_second_duplicate_409_witness :
    (createUser (postReq "alice") ⟨[], 1⟩ noDbErr).resp.status = 201 ∧
    (createUser (postReq "alice")
        (createUser (postReq "alice") ⟨[], 1⟩ noDbErr).db noDbErr).resp =
      sendErrorResponse "Username already exists" 409 ∧
    (createUser (postReq "alice")
        (createUser (postReq "alice") ⟨[], 1⟩ noDbErr).db noDbErr).db =
      (createUser (postReq "alice") ⟨[], 1⟩ noDbErr).db ∧
    ((createUser (postReq "alice") ⟨[], 1⟩ noDbErr).db).countName "alice" = 1 :=
  createUser_second_duplicate_409 "alice" ⟨[], 1⟩ (by decide) (by decide) (by decide) rfl

/-- C4: the checks of `createUser` fire in the fixed source order — method,
form parse, missing name, length, existence check (driver error, then
duplicate), insert — and the first failing check alone determines the
response; every later step (in particular every database access) is
skipped, as the rejected branches leave the table unchanged and depend on
neither the driver oracle nor the table. -/
theorem createUser_pipeline_order (r : Request) (db : Db) (o : DbOutcome) :
    (r.method ≠ Method.post →
      createUser r db o =
        ⟨sendErrorResponse "Invalid request method. Only POST is allowed" 405, db, []⟩) ∧
    (r.method = Method.post → r.parseFormOk = false →
      createUser r db o =
        ⟨sendErrorResponse "Failed to parse form data" 400, db, []⟩) ∧
    (r.method = Method.post → r.parseFormOk = true → r.nameField = "" →
      createUser r db o =
        ⟨sendErrorResponse "Username is required" 400, db, []⟩) ∧
    (r.method = Method.post → r.parseFormOk = true → r.nameField ≠ "" →
      (goLen r.nameField < 3 ∨ goLen r.nameField > 20) →
      createUser r db o =
        ⟨sendErrorResponse "Username must be between 3 and 20 characters" 400, db, []⟩) ∧
    (r.method = Method.post → r.parseFormOk = true → r.nameField ≠ "" →
      3 ≤ goLen r.nameField → goLen r.nameField ≤ 20 →
      ∀ e, o.existsErr = some e →
      createUser r db o =
        ⟨sendErrorResponse "Error checking username" 500, db,
          [DbQuery.existsCheck r.nameField]⟩) ∧
    (r.method = Method.post → r.parseFormOk = true → r.nameField ≠ "" →
      3 ≤ goLen r.nameField → goLen r.nameField ≤ 20 →
      o.existsErr = none →
      db.rows.any (fun u => u.name == r.nameField) = true →
      createUser r db o =
        ⟨sendErrorResponse "Username already exists" 409, db,
          [DbQuery.existsCheck r.nameField]⟩) ∧
    (r.method = Method.post → r.parseFormOk = true → r.nameField ≠ "" →
      3 ≤ goLen r.nameField → goLen r.nameField ≤ 20 →
      o.existsErr = none →
      db.rows.any (fun u => u.name == r.nameField) = false →
      ∀ e, o.insertErr = some e →
      createUser r db o =
        ⟨sendErrorResponse "Failed to create user" 500, db,
          [DbQuery.existsCheck r.nameField, DbQuery.insertUser r.nameField]⟩) ∧
    (r.method = Method.post → r.parseFormOk = true → r.nameField ≠ "" →
      3 ≤ goLen r.nameField → goLen r.nameField ≤ 20 →
      o.existsErr = none →
      db.rows.any (fun u => u.name == r.nameField) = false →
      o.insertErr = none →
      createUser r db o =
        ⟨sendSuccessResponse
           [("message", Json.str ("User " ++ r.nameField ++ " created successfully")),
            ("status", Json.num 201)] 201,
         db.insertUser r.nameField,
         [DbQuery.existsCheck r.nameField, DbQuery.insertUser r.nameField]⟩) :=
  ⟨createUser_not_post r db o,
   createUser_parse_fail r db o,
   createUser_empty_name r db o,
   createUser_bad_length r db o,
   fun hm hp hn h3 h20 e he => createUser_exists_check_err r db o hm hp hn h3 h20 e he,
   fun hm hp hn h3 h20 he hdup => createUser_duplicate r db o hm hp hn h3 h20 he hdup,
   fun hm hp hn h3 h20 he hdup e hi =>
     createUser_insert_err r db o hm hp hn h3 h20 he hdup e hi,
   fun hm hp hn h3 h20 he hdup hi => createUser_ok r db o hm hp hn h3 h20 he hdup hi⟩

/-- Witness for C4: one concrete request per branch of the pipeline. -/
theorem createUser_pipeline_order_witness :
    createUser ⟨Method.get, true, "alice"⟩ ⟨[], 1⟩ noDbErr =
      ⟨sendErrorResponse "Invalid request method. Only POST is allowed" 405, ⟨[], 1⟩, []⟩ ∧
    createUser ⟨Method.post, false, "alice"⟩ ⟨[], 1⟩ noDbErr =
      ⟨sendErrorResponse "Failed to parse form data" 400, ⟨[], 1⟩, []⟩ ∧
    createUser (postReq "") ⟨[], 1⟩ noDbErr =
      ⟨sendErrorResponse "Username is required" 400, ⟨[], 1⟩, []⟩ ∧
    createUser (postReq "ab") ⟨[], 1⟩ noDbErr =
      ⟨sendErrorResponse "Username must be between 3 and 20 characters" 400, ⟨[], 1⟩, []⟩ ∧
    createUser (postReq "alice") ⟨[], 1⟩ ⟨some "timeout", none⟩ =
      ⟨sendErrorResponse "Error checking username" 500, ⟨[], 1⟩,
        [DbQuery.existsCheck "alice"]⟩ ∧
    createUser (postReq "alice") ⟨[⟨1, "alice"⟩], 2⟩ noDbErr =
      ⟨sendErrorResponse "Username already exists" 409, ⟨[⟨1, "alice"⟩], 2⟩,
        [DbQuery.existsCheck "alice"]⟩ ∧
    createUser (postReq "alice") ⟨[], 1⟩ ⟨none, some "timeout"⟩ =
      ⟨sendErrorResponse "Failed to create user" 500, ⟨[], 1⟩,
        [DbQuery.existsCheck "alice", DbQuery.insertUser "alice"]⟩ ∧
    createUser (postReq "alice") ⟨[], 1⟩ noDbErr =
      ⟨sendSuccessResponse
         [("message", Json.str "User alice created successfully"),
          ("status", Json.num 201)] 201,
       ⟨[⟨1, "alice"⟩], 2⟩,
       [DbQuery.existsCheck "alice", DbQuery.insertUser "alice"]⟩ :=
  ⟨(createUser_pipeline_order ⟨Method.get, true, "alice"⟩ ⟨[], 1⟩ noDbErr).1 (by decide),
   (createUser_pipeline_order ⟨Method.post, false, "alice"⟩ ⟨[], 1⟩ noDbErr).2.1 rfl rfl,
   (createUser_pipeline_order (postReq "") ⟨[], 1⟩ noDbErr).2.2.1 rfl rfl rfl,
   (createUser_pipeline_order (postReq "ab") ⟨[], 1⟩ noDbErr).2.2.2.1 rfl rfl
     (by decide) (by decide),
   (createUser_pipeline_order (postReq "alice") ⟨[], 1⟩ ⟨some "timeout", none⟩).2.2.2.2.1
     rfl rfl (by decide) (by decide) (by decide) "timeout" rfl,
   (createUser_pipeline_order (postReq "alice") ⟨[⟨1, "alice"⟩], 2⟩ noDbErr).2.2.2.2.2.1
     rfl rfl (by decide) (by decide) (by decide) rfl (by decide),
   (createUser_pipeline_order (postReq "alice") ⟨[], 1⟩ ⟨none, some "timeout"⟩).2.2.2.2.2.2.1
     rfl rfl (by decide) (by decide) (by decide) rfl (by decide) "timeout" rfl,
   (createUser_pipeline_order (postReq "alice") ⟨[], 1⟩ noDbErr).2.2.2.2.2.2.2
     rfl rfl (by decide) (by decide) (by decide) rfl (by decide) rfl⟩

/-- The response envelope of the service: a JSON object whose `status`
field is the numeric HTTP status code of the response, carrying a `users`
field, a string `message` field, or a string `error` field. -/
def isEnvelope (resp : HttpResponse) : Prop :=
  ∃ fields, resp.body = Json.obj fields ∧
    Json.lookupField fields "status" = some (Json.num resp.status) ∧
    ((∃ v, Json.lookupField fields "users" = some v) ∨
     (∃ m, Json.lookupField fields "message" = some (Json.str m)) ∨
     (∃ m, Json.lookupField fields "error" = some (Json.str m)))

/-- Every body `sendErrorResponse` writes is an envelope. -/
theorem isEnvelope_sendError (msg : String) (code : Nat) :
    isEnvelope (sendErrorResponse msg code) :=
  ⟨[("error", Json.str msg), ("status", Json.num code)], rfl, rfl,
    Or.inr (Or.inr ⟨msg, rfl⟩)⟩

/-- C7: every response either handler can emit — for any driver outcome,
request and table — is a single envelope: a JSON object with a numeric
`status` field equal to the HTTP status code, plus a `users`/`message`
payload field or an `error` string field. -/
theorem responses_always_enveloped :
    (∀ q, isEnvelope (getUsers q)) ∧
    (∀ r db o, isEnvelope ((createUser r db o).resp)) := by
  constructor
  · intro q
    cases q with
    | err d => exact isEnvelope_sendError _ _
    | ok rows =>
      obtain ⟨scans, iterErr⟩ := rows
      simp only [getUsers]
      rcases scanLoop scans none with e | users
      · exact isEnvelope_sendError _ _
      · cases iterErr with
        | some d => exact isEnvelope_sendError _ _
        | none =>
            exact ⟨[("status", Json.num 200), ("users", encodeGoSlice users)],
              rfl, rfl, Or.inl ⟨_, rfl⟩⟩
  · intro r db o
    unfold createUser
    split
    · exact isEnvelope_sendError _ _
    split
    · exact isEnvelope_sendError _ _
    split
    · exact isEnvelope_sendError _ _
    split
    · exact isEnvelope_sendError _ _
    rcases checkUsernameExists db r.nameField o.existsErr with e | b
    · exact isEnvelope_sendError _ _
    · cases b with
      | true => exact isEnvelope_sendError _ _
      | false =>
          rcases o.insertErr with e | _
          · exact ⟨[("message", Json.str ("User " ++ r.nameField ++ " created successfully")),
              ("status", Json.num 201)], rfl, rfl, Or.inr (Or.inl ⟨_, rfl⟩)⟩
          · exact isEnvelope_sendError _ _

/-- C8: the driver's error detail never reaches the client: at each of the
five persistence failure points (query, scan, iteration, existence check,
insert), any two underlying driver errors produce identical responses. -/
theorem error_details_never_leaked (d1 d2 : String) :
    (getUsers (QueryOutcome.err d1) = getUsers (QueryOutcome.err d2)) ∧
    (∀ pre t1 t2 ie1 ie2,
      getUsers (QueryOutcome.ok ⟨pre ++ ScanOutcome.err d1 :: t1, ie1⟩) =
      getUsers (QueryOutcome.ok ⟨pre ++ ScanOutcome.err d2 :: t2, ie2⟩)) ∧
    (∀ scans,
      getUsers (QueryOutcome.ok ⟨scans, some d1⟩) =
      getUsers (QueryOutcome.ok ⟨scans, some d2⟩)) ∧
    (∀ r db i1 i2,
      createUser r db ⟨some d1, i1⟩ = createUser r db ⟨some d2, i2⟩) ∧
    (∀ r db,
      createUser r db ⟨none, some d1⟩ = createUser r db ⟨none, some d2⟩) := by
  refine ⟨rfl, ?_, ?_, ?_, ?_⟩
  · intro pre t1 t2 ie1 ie2
    obtain ⟨e1, h1⟩ := scanLoop_error_of_append pre d1 t1 none
    obtain ⟨e2, h2⟩ := scanLoop_error_of_append pre d2 t2 none
    simp only [getUsers]
    rw [h1, h2]
  · intro scans
    simp only [getUsers]
  · intro r db i1 i2
    by_cases hm : r.method = Method.post
    · cases hpv : r.parseFormOk
      · rw [createUser_parse_fail r db _ hm hpv, createUser_parse_fail r db _ hm hpv]
      · by_cases hn : r.nameField = ""
        · rw [createUser_empty_name r db _ hm hpv hn,
              createUser_empty_name r db _ hm hpv hn]
        · by_cases hl : goLen r.nameField < 3 ∨ goLen r.nameField > 20
          · rw [createUser_bad_length r db _ hm hpv hn hl,
                createUser_bad_length r db _ hm hpv hn hl]
          · push_neg at hl
            obtain ⟨h3, h20⟩ := hl
            rw [createUser_exists_check_err r db ⟨some d1, i1⟩ hm hpv hn h3 h20 d1 rfl,
                createUser_exists_check_err r db ⟨some d2, i2⟩ hm hpv hn h3 h20 d2 rfl]
    · rw [createUser_not_post r db _ hm, createUser_not_post r db _ hm]
  · intro r db
    by_cases hm : r.method = Method.post
    · cases hpv : r.parseFormOk
      · rw [createUser_parse_fail r db _ hm hpv, createUser_parse_fail r db _ hm hpv]
      · by_cases hn : r.nameField = ""
        · rw [createUser_empty_name r db _ hm hpv hn,
              createUser_empty_name r db _ hm hpv hn]
        · by_cases hl : goLen r.nameField < 3 ∨ goLen r.nameField > 20
          · rw [createUser_bad_length r db _ hm hpv hn hl,
                createUser_bad_length r db _ hm hpv hn hl]
          · push_neg at hl
            obtain ⟨h3, h20⟩ := hl
            cases hdup : db.rows.any (fun u => u.name == r.nameField) with
            | true =>
                rw [createUser_duplicate r db _ hm hpv hn h3 h20 rfl hdup,
                    createUser_duplicate r db _ hm hpv hn h3 h20 rfl hdup]
            | false =>
                rw [createUser_insert_err r db ⟨none, some d1⟩ hm hpv hn h3 h20 rfl hdup
                      d1 rfl,
                    createUser_insert_err r db ⟨none, some d2⟩ hm hpv hn h3 h20 rfl hdup
                      d2 rfl]
    · rw [createUser_not_post r db _ hm, createUser_not_post r db _ hm]

/-- C9: the duplicate check is exact, case-sensitive string equality — the
existence query answers true exactly when some stored row's name is equal
to the submitted name, a 409 can only arise from such an exact match, and
`alice` then `Alice` are both created (statuses 201 and 201, two rows). -/
theorem username_check_exact_case_sensitive :
    (∀ db username,
      checkUsernameExists db username none = Except.ok true ↔
        ∃ u ∈ db.rows, u.name = username) ∧
    (∀ r db o, (createUser r db o).resp.status = 409 →
        ∃ u ∈ db.rows, u.name = r.nameField) ∧
    ((createUser (postReq "alice") ⟨[], 1⟩ noDbErr).resp.status = 201 ∧
     (createUser (postReq "Alice")
        (createUser (postReq "alice") ⟨[], 1⟩ noDbErr).db noDbErr).resp.status = 201 ∧
     (createUser (postReq "Alice")
        (createUser (postReq "alice") ⟨[], 1⟩ noDbErr).db noDbErr).db.rows =
       [⟨1, "alice"⟩, ⟨2, "Alice"⟩]) := by
  refine ⟨?_, ?_, by decide, by decide, by decide⟩
  · intro db username
    unfold checkUsernameExists
    constructor
    · intro h
      injection h with h2
      rw [List.any_eq_true] at h2
      obtain ⟨u, hu, hp⟩ := h2
      exact ⟨u, hu, by simpa using hp⟩
    · rintro ⟨u, hu, hp⟩
      have : db.rows.any (fun u => u.name == username) = true :=
        List.any_eq_true.mpr ⟨u, hu, by simp [hp]⟩
      rw [this]
  · intro r db o h
    by_cases hm : r.method = Method.post
    · cases hpv : r.parseFormOk
      · rw [createUser_parse_fail r db o hm hpv] at h
        simp [sendErrorResponse] at h
      · by_cases hn : r.nameField = ""
        · rw [createUser_empty_name r db o hm hpv hn] at h
          simp [sendErrorResponse] at h
        · by_cases hl : goLen r.nameField < 3 ∨ goLen r.nameField > 20
          · rw [createUser_bad_length r db o hm hpv hn hl] at h
            simp [sendErrorResponse] at h
          · push_neg at hl
            obtain ⟨h3, h20⟩ := hl
            cases he : o.existsErr with
            | some e =>
                rw [createUser_exists_check_err r db o hm hpv hn h3 h20 e he] at h
                simp [sendErrorResponse] at h
            | none =>
                cases hdup : db.rows.any (fun u => u.name == r.nameField) with
                | true =>
                    rw [List.any_eq_true] at hdup
                    obtain ⟨u, hu, hp⟩ := hdup
                    exact ⟨u, hu, by simpa using hp⟩
                | false =>
                    cases hi : o.insertErr with
                    | some e =>
                        rw [createUser_insert_err r db o hm hpv hn h3 h20 he hdup e hi] at h
                        simp [sendErrorResponse] at h
                    | none =>
                        rw [createUser_ok r db o hm hpv hn h3 h20 he hdup hi] at h
                        simp [sendSuccessResponse] at h
    · rw [createUser_not_post r db o hm] at h
      simp [sendErrorResponse] at h

/-- Witness for C9: the 409 of a duplicate `alice` comes from an exactly
matching stored row. -/
theorem username_check_exact_case_sensitive_witness :
    ∃ u ∈ ([⟨1, "alice"⟩] : List User), u.name = (postReq "alice").nameField :=
  username_check_exact_case_sensitive.2.1 (postReq "alice") ⟨[⟨1, "alice"⟩], 2⟩ noDbErr
    (by decide)
